import Mathlib

/-!
# Verification of the Product service template

A shallow embedding of the Product CRUD template
(`service_template.py`, `schema_template.py`, `model_template.py`,
`router_template.py`) and proofs about its service-layer rules.

Modelling conventions:
* UUIDs and timestamps are `Nat`.
* `Decimal` monetary values are `Rat` (exact arithmetic; `Decimal` is exact,
  so no rounding behaviour is lost for the operations modelled here).
* The database table of products is a `List Product`; an operation returns
  the resulting table together with an `Except` result, so a raised error
  leaves the table it returns equal to its input (the Python code raises
  before `commit`, so nothing is persisted on the error paths).
* `sqlalchemy`'s `ilike "%s%"` is modelled as case-insensitive substring
  matching on the name (SQL wildcard characters inside the search term are
  not modelled; no claim depends on them).
-/

namespace ProductApi

/-- Error taxonomy of `src/core/exceptions`: `NotFoundError`,
`ValidationError` (machine-readable `code`), `ConflictError` (machine-readable
`code` plus details carrying the colliding sku and the existing entity id).
`integrity` models the database itself rejecting a `commit` that violates a
`NOT NULL` column constraint (an error raised below the service layer). -/
inductive ServiceError where
  | notFound (product_id : Nat)
  | validation (code : String)
  | conflict (code : String) (sku : String) (existing_id : Nat)
  | integrity
deriving DecidableEq, Repr

/-- The `Product` ORM entity (`model_template.py`): basic fields, status
fields, the category foreign key, and the mixin columns (`id`, `created_at`,
`updated_at`, `created_by`, `updated_by`).  `published_by` is the extra
attribute the service's `publish` stamps on the row. -/
structure Product where
  id : Nat
  name : String
  description : Option String
  sku : String
  price : Rat
  quantity : Nat
  is_active : Bool
  is_published : Bool
  published_at : Option Nat
  category_id : Nat
  created_at : Nat
  updated_at : Option Nat
  created_by : Option Nat
  updated_by : Option Nat
  published_by : Option Nat
deriving DecidableEq, Repr

/-- Schema `ProductCreate` (`schema_template.py`): the POST request body as it
reaches the service, i.e. plain field values. -/
structure ProductCreate where
  name : String
  description : Option String
  price : Rat
  sku : String
  category_id : Nat
deriving DecidableEq, Repr

/-- Schema `ProductUpdate` (`schema_template.py`): the PATCH request body.  Pydantic
tracks which fields were explicitly supplied (`model_fields_set`), and the
service applies `model_dump(exclude_unset=True)`; so each field here is
`Option (Option _)`: `none` = absent from the payload, `some v` = explicitly
present with (possibly null) value `v`.  All four schema fields accept an
explicit null (`str | None`, `Decimal | None`, `UUID | None`). -/
structure ProductUpdate where
  name : Option (Option String)
  description : Option (Option String)
  price : Option (Option Rat)
  category_id : Option (Option Nat)
deriving DecidableEq, Repr

namespace ProductService

/-- Method `ProductService.get_by_id`: `SELECT ... WHERE id = product_id`,
`NotFoundError` when no row matches. -/
def get_by_id (db : List Product) (product_id : Nat) : Except ServiceError Product :=
  match db.find? (fun p => p.id = product_id) with
  | some p => .ok p
  | none => .error (.notFound product_id)

/-- Method `ProductService.get_by_sku`: `SELECT ... WHERE sku = sku`, `None` when no
row matches (not an error condition). -/
def get_by_sku (db : List Product) (sku : String) : Option Product :=
  db.find? (fun p => p.sku = sku)

/-- The row built by `Product(**data.model_dump(), created_by=created_by)`:
schema fields from the payload, audit actor supplied, every other column at
its declared default (`quantity=0`, `is_active=True`, `is_published=False`,
nullable columns null, `created_at` stamped by the database). -/
def newProduct (data : ProductCreate) (created_by : Nat) (new_id : Nat)
    (now : Nat) : Product :=
  { id := new_id
    name := data.name
    description := data.description
    sku := data.sku
    price := data.price
    quantity := 0
    is_active := true
    is_published := false
    published_at := none
    category_id := data.category_id
    created_at := now
    updated_at := none
    created_by := some created_by
    updated_by := none
    published_by := none }

/-- Method `ProductService.create`: reject `price < Decimal("0.01")` (the exact
rational 1/100) with `ValidationError InvalidPrice`; then reject a duplicate
sku with `ConflictError DuplicateSKU` carrying the sku and the existing
row's id; otherwise insert and commit the new row.  `new_id` is the
generated identity and `now` the database timestamp. -/
def create (db : List Product) (data : ProductCreate) (created_by : Nat)
    (new_id : Nat) (now : Nat) : List Product × Except ServiceError Product :=
  if data.price < mkRat 1 100 then
    (db, .error (.validation "InvalidPrice"))
  else
    match get_by_sku db data.sku with
    | some existing =>
        (db, .error (.conflict "DuplicateSKU" data.sku existing.id))
    | none =>
        let p := newProduct data created_by new_id now
        (db ++ [p], .ok p)

/-- Method `ProductService.update`: load the row (`NotFoundError` if missing), apply
exactly the fields present in `data.model_dump(exclude_unset=True)` via
`setattr`, stamp `updated_by`, commit.  An explicit null applied to a
`NOT NULL` column (`name`, `price`, `category_id` in `model_template.py`) is
rejected by the database at commit time, modelled as `ServiceError.integrity`;
the table is unchanged in that case.  `description` is nullable, so an
explicit null there is applied. -/
def update (db : List Product) (product_id : Nat) (data : ProductUpdate)
    (updated_by : Nat) : List Product × Except ServiceError Product :=
  match get_by_id db product_id with
  | .error e => (db, .error e)
  | .ok product =>
      if data.name = some none ∨ data.price = some none ∨
          data.category_id = some none then
        (db, .error .integrity)
      else
        let p' : Product :=
          { product with
            name := match data.name with
              | some (some v) => v
              | _ => product.name
            description := match data.description with
              | some d => d
              | none => product.description
            price := match data.price with
              | some (some v) => v
              | _ => product.price
            category_id := match data.category_id with
              | some (some v) => v
              | _ => product.category_id
            updated_by := some updated_by }
        (db.map (fun q => if q.id = product_id then p' else q), .ok p')

/-- The Python truthiness test `not product.description`: true for an absent
(`None`) and for an empty description. -/
def descriptionMissing : Option String → Bool
  | none => true
  | some s => s = ""

/-- Method `ProductService.publish`: load the row (`NotFoundError` if missing);
reject with `ValidationError MissingDescription` when the description is
absent or empty; otherwise set `is_published`, stamp the publish timestamp
(`now`, the database clock) and the publishing actor, and commit. -/
def publish (db : List Product) (product_id : Nat) (published_by : Nat)
    (now : Nat) : List Product × Except ServiceError Product :=
  match get_by_id db product_id with
  | .error e => (db, .error e)
  | .ok product =>
      if descriptionMissing product.description then
        (db, .error (.validation "MissingDescription"))
      else
        let p' : Product :=
          { product with
            is_published := true
            published_at := some now
            published_by := some published_by }
        (db.map (fun q => if q.id = product_id then p' else q), .ok p')

/-- Method `ProductService.bulk_update_prices`: one `UPDATE products SET price =
price * multiplier WHERE category_id = category_id`; returns the resulting
table and the statement's rowcount.  No per-row validation of the new
price. -/
def bulk_update_prices (db : List Product) (category_id : Nat)
    (multiplier : Rat) : List Product × Nat :=
  (db.map (fun p =>
      if p.category_id = category_id then
        { p with price := p.price * multiplier }
      else p),
   (db.filter (fun p => p.category_id = category_id)).length)

/-- Predicate: `needle` occurs as a contiguous run inside `haystack` (the semantics of
SQL `LIKE "%needle%"` on the character lists of the two strings). -/
def containsRun (needle : List Char) : List Char → Bool
  | [] => needle.isEmpty
  | c :: t => needle.isPrefixOf (c :: t) || containsRun needle t

/-- The WHERE clause built by `ProductService.list`.  `if category_id:` — a
UUID object is always truthy, so the category filter applies exactly when the
argument is present; `if search:` — the empty string is falsy, so
`search=""` applies no filter.  `ilike "%search%"` is case-insensitive
substring matching on the name. -/
def matchesFilters (category_id : Option Nat) (search : Option String)
    (p : Product) : Bool :=
  (match category_id with
    | some c => p.category_id = c
    | none => true) &&
  (match search with
    | some s =>
        if s = "" then true
        else containsRun s.toLower.toList p.name.toLower.toList
    | none => true)

/-- Insertion step for `ORDER BY created_at DESC` (later timestamps first). -/
def insertDesc (p : Product) : List Product → List Product
  | [] => [p]
  | q :: qs =>
      if q.created_at ≤ p.created_at then p :: q :: qs
      else q :: insertDesc p qs

/-- Sorting for `ORDER BY created_at DESC`, as an insertion sort (the relative order of
equal timestamps is unspecified in SQL; no claim depends on it). -/
def sortByCreatedDesc : List Product → List Product
  | [] => []
  | p :: ps => insertDesc p (sortByCreatedDesc ps)

/-- Method `ProductService.list`: filter, count the full filtered set (the count
query wraps the filtered query before OFFSET/LIMIT are added), then order by
creation time descending and paginate with OFFSET `skip` / LIMIT `limit`. -/
def list (db : List Product) (skip limit : Nat) (category_id : Option Nat)
    (search : Option String) : List Product × Nat :=
  let filtered := db.filter (matchesFilters category_id search)
  (((sortByCreatedDesc filtered).drop skip).take limit, filtered.length)

end ProductService

/-! ## Validation schemas (`schema_template.py`) -/

/-- One character of the sku pattern `^[A-Z0-9-]+$`. -/
def skuCharOk (c : Char) : Bool :=
  ('A' ≤ c ∧ c ≤ 'Z') ∨ c.isDigit ∨ c = '-'

/-- The full sku pattern `^[A-Z0-9-]+$`: nonempty, every character an
uppercase letter, a digit or a dash. -/
def skuPatternOk (s : String) : Bool :=
  !s.isEmpty && s.toList.all skuCharOk

/-- The body of the `uppercase_sku` field_validator: `v.upper()`, i.e.
uppercasing character by character (spelled over the character list so that
it evaluates by kernel reduction). -/
def uppercase_sku (v : String) : String :=
  String.mk (v.toList.map Char.toUpper)

/-- Validation of the `sku` field of `ProductCreate`, with pydantic v2
semantics: the `Field` constraints (`pattern=r"^[A-Z0-9-]+$"`,
`max_length=50`) belong to core validation, which runs before the
`uppercase_sku` field_validator (whose default mode is "after"); the
validator therefore transforms only values that already matched the
pattern.  `none` = the payload is rejected with a 422 validation error;
`some s` = `s` is the sku value that reaches the service. -/
def ProductCreate.validate_sku (v : String) : Option String :=
  if skuPatternOk v && v.length ≤ 50 then some (uppercase_sku v)
  else none

/-- The `max_price_greater_than_min` field_validator of
`ProductQueryParams`: runs on `max_price` (`v`) with the already-validated
`min_price` in `info.data`; raises exactly when both are present and
`v < min_price`. -/
def ProductQueryParams.max_price_greater_than_min (v : Option Rat)
    (min_price : Option Rat) : Except String (Option Rat) :=
  match v, min_price with
  | some x, some m =>
      if x < m then .error "max_price must be greater than min_price"
      else .ok (some x)
  | _, _ => .ok v

/-! ## Response schemas and the router (`schema_template.py`,
`router_template.py`) -/

/-- Schema `ProductResponse`: the fields serialized back to the client.
(`created_by` is kept optional here because the entity column is nullable;
the schema field being required only matters for rows created outside the
service, which no claim exercises.) -/
structure ProductResponse where
  name : String
  description : Option String
  price : Rat
  id : Nat
  sku : String
  category_id : Nat
  is_published : Bool
  created_at : Nat
  updated_at : Option Nat
  created_by : Option Nat
deriving DecidableEq, Repr

/-- Serialization `ProductResponse.model_validate(product)`: read the response fields off
the entity's attributes. -/
def ProductResponse.model_validate (p : Product) : ProductResponse :=
  { name := p.name
    description := p.description
    price := p.price
    id := p.id
    sku := p.sku
    category_id := p.category_id
    is_published := p.is_published
    created_at := p.created_at
    updated_at := p.updated_at
    created_by := p.created_by }

/-- Schema `ProductListResponse`: a page of items plus the total count and the
pagination parameters that produced it. -/
structure ProductListResponse where
  items : List ProductResponse
  total : Nat
  skip : Nat
  limit : Nat
deriving DecidableEq, Repr

/-- The `has_more` computed field: `self.skip + len(self.items) <
self.total`. -/
def ProductListResponse.has_more (r : ProductListResponse) : Bool :=
  r.skip + r.items.length < r.total

/-- The `list_products` route handler: call `service.list`, serialize each
row, and assemble the paginated response. -/
def list_products (db : List Product) (skip limit : Nat)
    (category_id : Option Nat) (search : Option String) : ProductListResponse :=
  let res := ProductService.list db skip limit category_id search
  { items := res.1.map ProductResponse.model_validate
    total := res.2
    skip := skip
    limit := limit }

/-! ## Concrete fixtures (used by witnesses and counterexamples) -/

/-- A persisted product with a description. -/
def prodA : Product :=
  { id := 1
    name := "Widget"
    description := some "A fine widget"
    sku := "SKU-1"
    price := 5
    quantity := 0
    is_active := true
    is_published := false
    published_at := none
    category_id := 7
    created_at := 10
    updated_at := none
    created_by := some 1
    updated_by := none
    published_by := none }

/-- A persisted product without a description (id 2, category 8). -/
def prodNoDesc : Product :=
  { prodA with id := 2, sku := "SKU-2", description := none, category_id := 8 }

/-- A creation payload priced below one cent. -/
def cheapData : ProductCreate :=
  { name := "Cheap"
    description := none
    price := mkRat 1 200
    sku := "SKU-9"
    category_id := 7 }

/-- A creation payload priced below one cent whose sku collides with
`prodA`. -/
def cheapDup : ProductCreate :=
  { cheapData with sku := "SKU-1" }

/-- A well-priced creation payload whose sku collides with `prodA`. -/
def dupData : ProductCreate :=
  { name := "Other"
    description := none
    price := 3
    sku := "SKU-1"
    category_id := 7 }

/-! ## C2: create rejects sub-cent prices before anything else -/

/-- C2: every `create` call with `data.price < 0.01` fails with a
`ValidationError` tagged `InvalidPrice` and leaves the table unchanged (no
entity persisted); the conclusion holds for every table `db`, in particular
one already holding `data.sku`, so the price check preempts the
duplicate-sku check. -/
theorem create_invalidPrice (db : List Product) (data : ProductCreate)
    (created_by new_id now : Nat) (h : data.price < mkRat 1 100) :
    ProductService.create db data created_by new_id now =
      (db, .error (.validation "InvalidPrice")) := by
  unfold ProductService.create
  rw [if_pos h]

/-- Witness for C2: the table already holds sku `SKU-1`, the payload both
collides on that sku and is priced at half a cent, and the call still fails
with `InvalidPrice` without touching the table. -/
theorem create_invalidPrice_witness :
    cheapDup.price < mkRat 1 100 ∧
      ProductService.create [prodA] cheapDup 9 99 100 =
        ([prodA], .error (.validation "InvalidPrice")) :=
  ⟨by decide, create_invalidPrice [prodA] cheapDup 9 99 100 (by decide)⟩

/-! ## C3: duplicate sku is rejected, but only after the price check -/

/-- Counterexample to C3 as stated: with `prodA` (sku `SKU-1`) persisted, a
create call whose sku collides but whose price is below one cent fails with
`ValidationError InvalidPrice`, not with `ConflictError DuplicateSKU`. -/
theorem create_duplicateSku_cex :
    (ProductService.create [prodA] cheapDup 9 99 100).2 =
        .error (.validation "InvalidPrice") ∧
      ¬ ∃ s e, (ProductService.create [prodA] cheapDup 9 99 100).2 =
        .error (.conflict "DuplicateSKU" s e) := by
  have hp : cheapDup.price < mkRat 1 100 := by decide
  have h1 : (ProductService.create [prodA] cheapDup 9 99 100).2 =
      .error (.validation "InvalidPrice") := by
    unfold ProductService.create
    rw [if_pos hp]
  refine ⟨h1, ?_⟩
  rintro ⟨s, e, h⟩
  rw [h1] at h
  simp at h

/-- C3 (amended): every `create` call whose price passes the minimum-price
check and whose sku matches an existing row fails with `ConflictError
DuplicateSKU` carrying the colliding sku and the existing row's id, and
leaves the table unchanged (no new entity persisted). -/
theorem create_duplicateSku (db : List Product) (data : ProductCreate)
    (created_by new_id now : Nat) (existing : Product)
    (hp : ¬ data.price < mkRat 1 100)
    (hs : ProductService.get_by_sku db data.sku = some existing) :
    ProductService.create db data created_by new_id now =
      (db, .error (.conflict "DuplicateSKU" data.sku existing.id)) := by
  unfold ProductService.create
  rw [if_neg hp, hs]

/-- Witness for C3 (amended): a well-priced payload colliding with `prodA`
fails with `DuplicateSKU` carrying `SKU-1` and `prodA`'s id. -/
theorem create_duplicateSku_witness :
    ProductService.create [prodA] dupData 9 99 100 =
      ([prodA], .error (.conflict "DuplicateSKU" "SKU-1" 1)) :=
  create_duplicateSku [prodA] dupData 9 99 100 prodA (by decide) (by decide)

/-! ## C1: partial update is field-presence-driven -/

/-- C1: for an update of an existing product whose explicit nulls hit only
nullable columns, the service commits a row `p'` in which every schema field
absent from the payload keeps the stored value, and every field explicitly
present — including an explicit null for the nullable `description` —
carries the payload value; presence, not the value, decides what is
applied. -/
theorem update_presence (db : List Product) (product_id : Nat)
    (data : ProductUpdate) (updated_by : Nat) (p : Product)
    (hget : ProductService.get_by_id db product_id = .ok p)
    (hn : data.name ≠ some none) (hpr : data.price ≠ some none)
    (hc : data.category_id ≠ some none) :
    ∃ p', ProductService.update db product_id data updated_by =
        (db.map (fun q => if q.id = product_id then p' else q), .ok p') ∧
      (data.name = none → p'.name = p.name) ∧
      (data.description = none → p'.description = p.description) ∧
      (data.price = none → p'.price = p.price) ∧
      (data.category_id = none → p'.category_id = p.category_id) ∧
      (∀ v, data.name = some (some v) → p'.name = v) ∧
      (∀ d, data.description = some d → p'.description = d) ∧
      (∀ v, data.price = some (some v) → p'.price = v) ∧
      (∀ v, data.category_id = some (some v) → p'.category_id = v) := by
  unfold ProductService.update
  rw [hget]
  simp only []
  rw [if_neg (by push_neg; exact ⟨hn, hpr, hc⟩)]
  refine ⟨_, rfl, ?_, ?_, ?_, ?_, ?_, ?_, ?_, ?_⟩
  · intro h; rw [h]
  · intro h; rw [h]
  · intro h; rw [h]
  · intro h; rw [h]
  · intro v h; rw [h]
  · intro d h; rw [h]
  · intro v h; rw [h]
  · intro v h; rw [h]

/-- A payload renaming the product and explicitly nulling its description,
with price and category absent. -/
def updNameDescNull : ProductUpdate :=
  { name := some (some "Renamed")
    description := some none
    price := none
    category_id := none }

/-- Witness for C1: updating `prodA` with `updNameDescNull` applies the new
name and the explicit null description and leaves price and category at the
stored values. -/
theorem update_presence_witness :
    ∃ p', ProductService.update [prodA] 1 updNameDescNull 42 =
        ([prodA].map (fun q => if q.id = 1 then p' else q), .ok p') ∧
      (updNameDescNull.name = none → p'.name = prodA.name) ∧
      (updNameDescNull.description = none → p'.description = prodA.description) ∧
      (updNameDescNull.price = none → p'.price = prodA.price) ∧
      (updNameDescNull.category_id = none → p'.category_id = prodA.category_id) ∧
      (∀ v, updNameDescNull.name = some (some v) → p'.name = v) ∧
      (∀ d, updNameDescNull.description = some d → p'.description = d) ∧
      (∀ v, updNameDescNull.price = some (some v) → p'.price = v) ∧
      (∀ v, updNameDescNull.category_id = some (some v) → p'.category_id = v) :=
  update_presence [prodA] 1 updNameDescNull 42 prodA rfl
    (by decide) (by decide) (by decide)

/-! ## C9: the fields an update can never touch -/

/-- C9: whenever `update` succeeds, the committed row agrees with the loaded
row on `id`, `sku`, `quantity`, `is_active`, `is_published`, `published_at`,
`created_at` and `created_by` — the payload schema admits only `name`,
`description`, `price`, `category_id`, and the service additionally stamps
only `updated_by`; the committed table replaces just the addressed row. -/
theorem update_frame (db : List Product) (product_id : Nat)
    (data : ProductUpdate) (updated_by : Nat) (db' : List Product)
    (p' : Product)
    (h : ProductService.update db product_id data updated_by = (db', .ok p')) :
    ∃ p, ProductService.get_by_id db product_id = .ok p ∧
      p'.id = p.id ∧ p'.sku = p.sku ∧ p'.quantity = p.quantity ∧
      p'.is_active = p.is_active ∧ p'.is_published = p.is_published ∧
      p'.published_at = p.published_at ∧ p'.created_at = p.created_at ∧
      p'.created_by = p.created_by ∧ p'.updated_by = some updated_by ∧
      db' = db.map (fun q => if q.id = product_id then p' else q) := by
  unfold ProductService.update at h
  cases hget : ProductService.get_by_id db product_id with
  | error e =>
      rw [hget] at h
      simp only [] at h
      simp at h
  | ok p =>
      rw [hget] at h
      simp only [] at h
      by_cases hbad : data.name = some none ∨ data.price = some none ∨
          data.category_id = some none
      · rw [if_pos hbad] at h
        simp at h
      · rw [if_neg hbad] at h
        simp only [Prod.mk.injEq, Except.ok.injEq] at h
        obtain ⟨h1, h2⟩ := h
        subst h2
        exact ⟨p, rfl, rfl, rfl, rfl, rfl, rfl, rfl, rfl, rfl, rfl, h1.symm⟩

/-- A payload supplying only a new price. -/
def updPrice : ProductUpdate :=
  { name := none
    description := none
    price := some (some 9)
    category_id := none }

/-- Fixture: `prodA` after `updPrice` is applied by user 5. -/
def prodA9 : Product :=
  { prodA with price := 9, updated_by := some 5 }

/-- Witness for C9: repricing `prodA` leaves its identity, sku, stock,
status, publication and creation audit fields intact. -/
theorem update_frame_witness :
    ∃ p, ProductService.get_by_id [prodA] 1 = .ok p ∧
      prodA9.id = p.id ∧ prodA9.sku = p.sku ∧ prodA9.quantity = p.quantity ∧
      prodA9.is_active = p.is_active ∧ prodA9.is_published = p.is_published ∧
      prodA9.published_at = p.published_at ∧ prodA9.created_at = p.created_at ∧
      prodA9.created_by = p.created_by ∧ prodA9.updated_by = some 5 ∧
      [prodA9] = [prodA].map (fun q => if q.id = 1 then prodA9 else q) :=
  update_frame [prodA] 1 updPrice 5 [prodA9] prodA9 rfl

/-! ## C5: publish -/

/-- C5: `publish` fails with `NotFoundError` when no row has the id; fails
with `ValidationError MissingDescription` (table unchanged) when the loaded
row's description is absent or empty; and otherwise commits the row with
`is_published = true`, the publish timestamp and the publishing actor
stamped. -/
theorem publish_spec (db : List Product) (product_id published_by now : Nat) :
    ((∀ q ∈ db, q.id ≠ product_id) →
      ProductService.publish db product_id published_by now =
        (db, .error (.notFound product_id))) ∧
    (∀ p, ProductService.get_by_id db product_id = .ok p →
      ProductService.descriptionMissing p.description = true →
      ProductService.publish db product_id published_by now =
        (db, .error (.validation "MissingDescription"))) ∧
    (∀ p, ProductService.get_by_id db product_id = .ok p →
      ProductService.descriptionMissing p.description = false →
      ProductService.publish db product_id published_by now =
        (db.map (fun q => if q.id = product_id then
            { p with
              is_published := true
              published_at := some now
              published_by := some published_by } else q),
         .ok { p with
              is_published := true
              published_at := some now
              published_by := some published_by })) := by
  refine ⟨?_, ?_, ?_⟩
  · intro hall
    have hnone : db.find? (fun q => q.id = product_id) = none := by
      rw [List.find?_eq_none]
      intro q hq
      simpa using hall q hq
    unfold ProductService.publish ProductService.get_by_id
    rw [hnone]
  · intro p hget hmiss
    unfold ProductService.publish
    rw [hget]
    simp only []
    rw [if_pos hmiss]
  · intro p hget hmiss
    unfold ProductService.publish
    rw [hget]
    simp only []
    rw [if_neg (by simp [hmiss])]

/-- Fixture: `prodA` after being published by user 5 at time 50. -/
def prodApub : Product :=
  { prodA with
    is_published := true
    published_at := some 50
    published_by := some 5 }

/-- Witness for C5: the three branches at concrete inputs — missing id,
missing description, and a successful publish of `prodA`. -/
theorem publish_spec_witness :
    ProductService.publish ([] : List Product) 1 5 50 =
        ([], .error (.notFound 1)) ∧
      ProductService.publish [prodNoDesc] 2 5 50 =
        ([prodNoDesc], .error (.validation "MissingDescription")) ∧
      ProductService.publish [prodA] 1 5 50 = ([prodApub], .ok prodApub) :=
  ⟨(publish_spec [] 1 5 50).1 (by simp),
   (publish_spec [prodNoDesc] 2 5 50).2.1 prodNoDesc rfl rfl,
   (publish_spec [prodA] 1 5 50).2.2 prodA rfl rfl⟩

/-! ## C6: bulk price update -/

/-- In `l.zip (l.map f)` every pair is `(x, f x)`. -/
theorem snd_eq_of_mem_zip_map {l : List Product} {f : Product → Product}
    {pq : Product × Product} (h : pq ∈ l.zip (l.map f)) : pq.2 = f pq.1 := by
  induction l with
  | nil => simp at h
  | cons a t ih =>
      rw [List.map_cons, List.zip_cons_cons] at h
      rcases List.mem_cons.mp h with h1 | h1
      · rw [h1]
      · exact ih h1

/-- C6: `bulk_update_prices` reports as affected-row count the number of
products in the category; the table keeps its length; positionally, a row in
the category gets its price multiplied by `multiplier` with every other
field intact, a row outside the category is untouched; and no validation
follows, so a non-positive multiplier drives a positive price to a
non-positive one. -/
theorem bulk_update_prices_spec (db : List Product) (cid : Nat) (mult : Rat) :
    (ProductService.bulk_update_prices db cid mult).2 =
        (db.filter (fun p => p.category_id = cid)).length ∧
      (ProductService.bulk_update_prices db cid mult).1.length = db.length ∧
      ∀ pq ∈ db.zip (ProductService.bulk_update_prices db cid mult).1,
        (pq.1.category_id = cid →
          pq.2 = { pq.1 with price := pq.1.price * mult }) ∧
        (pq.1.category_id ≠ cid → pq.2 = pq.1) ∧
        (mult ≤ 0 → pq.1.category_id = cid → 0 < pq.1.price →
          pq.2.price ≤ 0) := by
  refine ⟨rfl, by simp [ProductService.bulk_update_prices], ?_⟩
  intro pq hmem
  have h2 := @snd_eq_of_mem_zip_map db
    (fun p => if p.category_id = cid then
      { p with price := p.price * mult } else p) pq hmem
  simp only [] at h2
  refine ⟨?_, ?_, ?_⟩
  · intro hc
    rw [h2, if_pos hc]
  · intro hc
    rw [h2, if_neg hc]
  · intro hm hc hpos
    rw [h2, if_pos hc]
    exact mul_nonpos_iff.mpr (Or.inl ⟨hpos.le, hm⟩)

/-- Fixture: `prodA` after a bulk multiplier of -1 on its category. -/
def prodAneg : Product :=
  { prodA with price := prodA.price * (-1) }

/-- Witness for C6: a -1 multiplier on `prodA`'s category leaves its repriced
row with a non-positive price. -/
theorem bulk_update_prices_spec_witness : prodAneg.price ≤ 0 :=
  (((bulk_update_prices_spec [prodA] 7 (-1)).2.2 (prodA, prodAneg)
      (List.mem_singleton.mpr rfl)).2.2) (by decide) rfl (by decide)

/-! ## C4: pagination -/

/-- Inserting into the descending-sorted list is a permutation of consing. -/
theorem insertDesc_perm (p : Product) (l : List Product) :
    List.Perm (ProductService.insertDesc p l) (p :: l) := by
  induction l with
  | nil => exact List.Perm.refl _
  | cons q t ih =>
      unfold ProductService.insertDesc
      by_cases h : q.created_at ≤ p.created_at
      · rw [if_pos h]
      · rw [if_neg h]
        exact (ih.cons q).trans (List.Perm.swap p q t)

/-- Lemma: `ORDER BY` reorders the filtered rows without adding or dropping any:
the sorted list is a permutation of its input. -/
theorem sortByCreatedDesc_perm (l : List Product) :
    List.Perm (ProductService.sortByCreatedDesc l) l := by
  induction l with
  | nil => exact List.Perm.refl _
  | cons p t ih =>
      exact (insertDesc_perm p (ProductService.sortByCreatedDesc t)).trans (ih.cons p)

/-- The page returned by `ProductService.list`, spelled out. -/
theorem list_page_eq (db : List Product) (skip limit : Nat)
    (cid : Option Nat) (s : Option String) :
    (ProductService.list db skip limit cid s).1 =
      ((ProductService.sortByCreatedDesc
        (db.filter (ProductService.matchesFilters cid s))).drop skip).take limit :=
  rfl

/-- C4: over any table whose filtered set has 25 rows, `total` equals the
size of the full filtered set for every `skip`/`limit` (so it is independent
of pagination and equals 25 on every page), and the three pages
`(skip=0,limit=10)`, `(skip=10,limit=10)`, `(skip=20,limit=10)` have sizes
10, 10, 5 and together are a permutation of the filtered set — every
filtered row appears exactly once across the pages. -/
theorem list_pagination (db : List Product) (cid : Option Nat)
    (s : Option String)
    (h : (ProductService.list db 0 10 cid s).2 = 25) :
    (∀ skip limit, (ProductService.list db skip limit cid s).2 =
        (db.filter (ProductService.matchesFilters cid s)).length) ∧
      (∀ skip limit, (ProductService.list db skip limit cid s).2 = 25) ∧
      (ProductService.list db 0 10 cid s).1.length = 10 ∧
      (ProductService.list db 10 10 cid s).1.length = 10 ∧
      (ProductService.list db 20 10 cid s).1.length = 5 ∧
      List.Perm
        ((ProductService.list db 0 10 cid s).1 ++
          (ProductService.list db 10 10 cid s).1 ++
          (ProductService.list db 20 10 cid s).1)
        (db.filter (ProductService.matchesFilters cid s)) := by
  have hsort : (ProductService.sortByCreatedDesc
      (db.filter (ProductService.matchesFilters cid s))).length = 25 :=
    (sortByCreatedDesc_perm _).length_eq.trans h
  refine ⟨fun skip limit => rfl, fun skip limit => h, ?_, ?_, ?_, ?_⟩
  · rw [list_page_eq, List.length_take, List.length_drop, hsort]
    omega
  · rw [list_page_eq, List.length_take, List.length_drop, hsort]
    omega
  · rw [list_page_eq, List.length_take, List.length_drop, hsort]
    omega
  · rw [list_page_eq db 0 10, list_page_eq db 10 10, list_page_eq db 20 10,
      List.drop_zero]
    have e1 : (ProductService.sortByCreatedDesc
        (db.filter (ProductService.matchesFilters cid s))).take 10 ++
        ((ProductService.sortByCreatedDesc
          (db.filter (ProductService.matchesFilters cid s))).drop 10).take 10 =
        (ProductService.sortByCreatedDesc
          (db.filter (ProductService.matchesFilters cid s))).take 20 :=
      (List.take_add _ 10 10).symm
    have e2 : (ProductService.sortByCreatedDesc
        (db.filter (ProductService.matchesFilters cid s))).take 20 ++
        ((ProductService.sortByCreatedDesc
          (db.filter (ProductService.matchesFilters cid s))).drop 20).take 10 =
        (ProductService.sortByCreatedDesc
          (db.filter (ProductService.matchesFilters cid s))).take 30 :=
      (List.take_add _ 20 10).symm
    rw [e1, e2, List.take_of_length_le (by omega)]
    exact sortByCreatedDesc_perm _

/-- A 25-item fixture: products with distinct ids and creation times. -/
def fixture : List Product :=
  (List.range 25).map (fun i =>
    { id := i
      name := "Item"
      description := none
      sku := "S"
      price := 1
      quantity := 0
      is_active := true
      is_published := false
      published_at := none
      category_id := 0
      created_at := i
      updated_at := none
      created_by := none
      updated_by := none
      published_by := none })

/-- Witness for C4: over the unfiltered 25-item fixture, `total` is 25 on
every page, the three pages have sizes 10, 10, 5, and together they
enumerate the fixture exactly once. -/
theorem list_pagination_witness :
    (∀ skip limit, (ProductService.list fixture skip limit none none).2 =
        (fixture.filter (ProductService.matchesFilters none none)).length) ∧
      (∀ skip limit, (ProductService.list fixture skip limit none none).2 = 25) ∧
      (ProductService.list fixture 0 10 none none).1.length = 10 ∧
      (ProductService.list fixture 10 10 none none).1.length = 10 ∧
      (ProductService.list fixture 20 10 none none).1.length = 5 ∧
      List.Perm
        ((ProductService.list fixture 0 10 none none).1 ++
          (ProductService.list fixture 10 10 none none).1 ++
          (ProductService.list fixture 20 10 none none).1)
        (fixture.filter (ProductService.matchesFilters none none)) :=
  list_pagination fixture none none (by rfl)

/-! ## C10: has_more -/

/-- C10: the `has_more` flag of the response assembled by the
`list_products` route is true exactly when `skip` plus the number of items
on the page is strictly below `total`; pushed through the service, that is
`skip + min limit (F - skip) < F` with `F` the size of the filtered set. -/
theorem has_more_spec (db : List Product) (skip limit : Nat)
    (cid : Option Nat) (s : Option String) :
    (list_products db skip limit cid s).has_more =
        decide (skip + (list_products db skip limit cid s).items.length <
          (list_products db skip limit cid s).total) ∧
      (list_products db skip limit cid s).has_more =
        decide (skip + min limit
            ((db.filter (ProductService.matchesFilters cid s)).length - skip) <
          (db.filter (ProductService.matchesFilters cid s)).length) := by
  constructor
  · rfl
  · unfold list_products ProductListResponse.has_more
    simp only [List.length_map]
    rw [list_page_eq, List.length_take, List.length_drop,
      (sortByCreatedDesc_perm _).length_eq]
    rfl

/-! ## C8: cross-field price-filter rule -/

/-- C8: the query-parameter validator rejects exactly the payloads that
supply both `min_price` and `max_price` with `max_price < min_price`; equal
bounds pass, and a payload supplying at most one of the two is never
rejected by this rule. -/
theorem max_price_rule (min_price max_price : Option Rat) :
    ((∃ msg, ProductQueryParams.max_price_greater_than_min max_price
          min_price = .error msg) ↔
        (∃ m v, min_price = some m ∧ max_price = some v ∧ v < m)) ∧
      (∀ m : Rat, ProductQueryParams.max_price_greater_than_min (some m)
          (some m) = .ok (some m)) ∧
      (∀ v, ProductQueryParams.max_price_greater_than_min v none = .ok v) ∧
      (∀ m, ProductQueryParams.max_price_greater_than_min none m =
        .ok none) := by
  refine ⟨?_, ?_, ?_, ?_⟩
  · cases max_price with
    | none =>
        cases min_price <;>
          simp [ProductQueryParams.max_price_greater_than_min]
    | some x =>
        cases min_price with
        | none => simp [ProductQueryParams.max_price_greater_than_min]
        | some m =>
            by_cases hlt : x < m
            · simp [ProductQueryParams.max_price_greater_than_min, hlt]
            · simp [ProductQueryParams.max_price_greater_than_min, hlt]
  · intro m
    simp [ProductQueryParams.max_price_greater_than_min]
  · intro v
    cases v <;> simp [ProductQueryParams.max_price_greater_than_min]
  · intro m
    cases m <;> simp [ProductQueryParams.max_price_greater_than_min]

/-! ## C7: sku normalization -/

/-- C7 (evaluating the schema at the disputed inputs): a lowercase or
mixed-case sku is rejected by the pattern `^[A-Z0-9-]+$`, which pydantic
checks before the after-mode `uppercase_sku` validator can normalize it;
an already-uppercase sku is accepted unchanged.  The validator's stated
purpose — "Normalize SKU to uppercase" — is therefore unreachable for any
input that needs normalizing. -/
theorem validate_sku_spec :
    ProductCreate.validate_sku "widget-001" = none ∧
      ProductCreate.validate_sku "Widget-001" = none ∧
      ProductCreate.validate_sku "WIDGET-001" = some "WIDGET-001" := by
  refine ⟨by decide, by decide, by decide⟩

end ProductApi
